import Mathlib

/-!
The browser client `static/main.js` of student-risk-dashboard.

A shallow embedding of the upload client: the values it receives from the
server, the part of the document it writes to, and its four functions
(`showMessage`, `escapeHtml`, `displayResults`, `loadResults`) together with
the form's submit handler, as explicit state passing over a `World`.

Modelling conventions.

* A JSON object is a record whose fields are JavaScript values; a key that is
  missing from the object reads as `undefined`, as a property read does. The
  parsed body of an upload response may also be `null`, of which no property
  can be read (see `UploadJson`).
* Field values are the primitive values JSON can carry, or `undefined`.
* A number is represented by what this client can observe of it (see `JSNum`):
  the client does no arithmetic on server numbers, and IEEE-754 formatting is
  the host's.
* An element's `innerHTML` is the markup string last assigned to it; the table
  body is the list of the row markups appended to it, oldest first.
* An `await` splits a handler in two: the part that runs up to the request
  (`submit`, `loadResults`) and the part that runs when the request settles
  (`uploadSettled`, `resultsSettled`). Between `await fetch` and
  `await response.json()` the script neither reads nor writes the document,
  so the two awaits settle as one step.
-/

namespace StudentRisk

/-! ## JavaScript values -/

/-- A JavaScript number as observed by this client, which only tests a number
for truthiness, converts it to a string, and formats it with `toFixed(1)`.
For `87.456` the three observations are `true`, `"87.456"` and `"87.5"`. -/
structure JSNum where
  /-- Truthiness is `false` exactly for `0`, `-0` and `NaN`. -/
  truthy : Bool
  /-- The result of `String(x)`. -/
  toStr : String
  /-- The result of `x.toFixed(1)`. -/
  toFixed1 : String
deriving DecidableEq, Repr

/-- A field value: a primitive JSON value, or `undefined` for a missing key. -/
inductive JSVal where
  | undefined
  | null
  | bool (b : Bool)
  | num (x : JSNum)
  | str (s : String)
deriving DecidableEq, Repr

/-- What a `throw` carries: an `Error` with its message, or the `TypeError`
the host raises for a call of something that is not a function or a property
read on `undefined` or `null` (its message is the host's). -/
inductive JSErr where
  | error (message : String)
  | typeError
deriving DecidableEq, Repr

namespace JSVal

/-- JavaScript truthiness (`ToBoolean`), as used by `||` and `!`. -/
def truthy : JSVal → Bool
  | undefined => false
  | null => false
  | bool b => b
  | num x => x.truthy
  | str s => s != ""

/-- String conversion (`ToString`), as used by a template literal and by the
`Error` constructor. -/
def toStr : JSVal → String
  | undefined => "undefined"
  | null => "null"
  | bool true => "true"
  | bool false => "false"
  | num x => x.toStr
  | str s => s

/-- The expression `v || d` for a string literal `d`. -/
def orStr (v : JSVal) (d : String) : JSVal :=
  if v.truthy then v else str d

/-- The expression `v === lit` for a string literal `lit`. -/
def strictEqStr (v : JSVal) (lit : String) : Bool :=
  match v with
  | str s => s == lit
  | _ => false

/-- The expression `v.toFixed(1)`: a `TypeError` unless `v` is a number. -/
def toFixed1 : JSVal → Except JSErr String
  | num x => .ok x.toFixed1
  | _ => .error .typeError

end JSVal

/-! ## Data model -/

/-- One entry of the `/results` array. -/
structure Student where
  student_name : JSVal
  program : JSVal
  grade : JSVal
  attendance_rate : JSVal
  risk_label : JSVal
  recommended_action : JSVal
  email : JSVal
deriving DecidableEq, Repr

/-- The parts of the document the script reads or writes. -/
structure Dom where
  /-- Holds `uploadBtn.disabled`. -/
  uploadBtnDisabled : Bool
  /-- Holds `loader.style.display`. -/
  loaderDisplay : String
  /-- Holds `messageDiv.className`. -/
  messageClassName : String
  /-- Holds `messageDiv.innerHTML`. -/
  messageInnerHTML : String
  /-- Holds `messageDiv.style.display`. -/
  messageDisplay : String
  /-- Holds `resultsSection.style.display`. -/
  resultsSectionDisplay : String
  /-- Holds the `textContent` of `#totalStudents`. -/
  totalStudents : String
  /-- Holds the `textContent` of `#highRiskCount`. -/
  highRiskCount : String
  /-- Holds the `textContent` of `#mediumRiskCount`. -/
  mediumRiskCount : String
  /-- Holds the `textContent` of `#lowRiskCount`. -/
  lowRiskCount : String
  /-- Holds the rows of `tableBody`, each by its markup. -/
  tableBody : List String
deriving DecidableEq, Repr

/-! ## `escapeHtml` -/

/-- The HTML serialisation of one character of a text node. -/
def escapeChar (c : Char) : String :=
  if c = '&' then "&amp;"
  else if c = Char.ofNat 160 then "&nbsp;"
  else if c = '<' then "&lt;"
  else if c = '>' then "&gt;"
  else c.toString

/-- Reading `innerHTML` of an element whose only child is a text node. -/
def serializeText (s : String) : String :=
  String.join (s.toList.map escapeChar)

/-- Assigning `div.textContent = text`: `null` and `undefined` give the empty
string, anything else its string conversion. -/
def textContentOf : JSVal → String
  | .undefined => ""
  | .null => ""
  | v => v.toStr

/-- Source: `escapeHtml(text)`, lines 120-124. -/
def escapeHtml (text : JSVal) : String :=
  serializeText (textContentOf text)

/-! ## `displayResults` -/

/-- Source: the `riskClass` constant of lines 93-94. -/
def riskClass (student : Student) : String :=
  if student.risk_label.strictEqStr "High Risk" then "high"
  else if student.risk_label.strictEqStr "At Risk" then "medium"
  else "low"

/-- The template literal of lines 96-104, given the two formatted numbers. -/
def rowTemplate (student : Student) (grade attendance : String) : String :=
  "\n            <td><strong>" ++ escapeHtml student.student_name ++ "</strong></td>"
  ++ "\n            <td>" ++ escapeHtml (student.program.orStr "N/A") ++ "</td>"
  ++ "\n            <td>" ++ grade ++ "%</td>"
  ++ "\n            <td>" ++ attendance ++ "%</td>"
  ++ "\n            <td><span class=\"risk-badge " ++ riskClass student ++ "\">"
    ++ escapeHtml student.risk_label ++ "</span></td>"
  ++ "\n            <td>" ++ escapeHtml student.recommended_action ++ "</td>"
  ++ "\n            <td><a href=\"mailto:" ++ student.email.toStr
    ++ "\" class=\"email-link\">" ++ escapeHtml (student.email.orStr "") ++ "</a></td>"
  ++ "\n        "

/-- The markup assigned to `row.innerHTML` for one student, or the error
thrown while the template literal is evaluated. -/
def renderRow (student : Student) : Except JSErr String :=
  match student.grade.toFixed1 with
  | .error e => .error e
  | .ok grade =>
    match student.attendance_rate.toFixed1 with
    | .error e => .error e
    | .ok attendance => .ok (rowTemplate student grade attendance)

/-- The `forEach` of lines 91-106 over the remaining students: each row is
appended as soon as it is built, and an exception stops the loop with the rows
appended so far left in place. -/
def appendRows : List Student → List String → List String × Option JSErr
  | [], rows => (rows, none)
  | student :: rest, rows =>
    match renderRow student with
    | .error e => (rows, some e)
    | .ok html => appendRows rest (rows ++ [html])

/-- The number of entries whose `risk_label` is strictly equal to `label`. -/
def countLabel (students : List Student) (label : String) : Nat :=
  (students.filter (fun s => s.risk_label.strictEqStr label)).length

/-- Source: `displayResults(students)`, lines 75-109. The result is the
document afterwards and the exception that escaped, if any. -/
def displayResults (students : List Student) (dom : Dom) : Dom × Option JSErr :=
  let total := students.length
  let highRisk := countLabel students "High Risk"
  let atRisk := countLabel students "At Risk"
  let safe := countLabel students "Safe"
  let dom1 := { dom with
    totalStudents := toString total
    highRiskCount := toString highRisk
    mediumRiskCount := toString atRisk
    lowRiskCount := toString safe }
  let top10 := students.take 10
  let dom2 := { dom1 with tableBody := [] }
  match appendRows top10 dom2.tableBody with
  | (rows, some e) => ({ dom2 with tableBody := rows }, some e)
  | (rows, none) => ({ dom2 with tableBody := rows, resultsSectionDisplay := "block" }, none)

/-! ## The client's state -/

/-- The file handle taken from `#excelFile`. -/
structure File where
  name : String
deriving DecidableEq, Repr

/-- A call of `fetch`: the method, the URL and the entries of the form data
sent as the body. -/
structure Request where
  method : String
  url : String
  formData : List (String × File)
deriving DecidableEq, Repr

/-- The two functions the script passes to `setTimeout`. -/
inductive Callback where
  /-- The function `loadResults`, line 47. -/
  | loadResults
  /-- The arrow function of line 116, `messageDiv.style.display = 'none'`. -/
  | hideMessage
deriving DecidableEq, Repr

/-- The document together with what the script has asked of the host. -/
structure World where
  dom : Dom
  /-- The current time in milliseconds. -/
  now : Nat
  /-- Every request issued so far, oldest first. -/
  requests : List Request
  /-- The pending timers: the time each is due at, and its callback. -/
  timers : List (Nat × Callback)
  /-- The values passed to `console.error`, oldest first. -/
  console : List JSErr
  /-- The number of submit handlers suspended at their `await`. -/
  uploadsInFlight : Nat
  /-- The number of `loadResults` calls suspended at their `await`. -/
  loadsInFlight : Nat
deriving DecidableEq, Repr

/-- The two properties the submit handler reads of the parsed body of an
`/upload-excel` response; a property the value does not have reads as
`undefined`. -/
structure UploadData where
  detail : JSVal
  message : JSVal
deriving DecidableEq, Repr

/-- The value `response.json()` resolves to in the submit handler. Reading a
property of the JSON value `null` throws a `TypeError`, whose message is the
host's and is carried here, as the messages of a rejected fetch and of the
JSON parser are; reading `detail` or `message` of any other JSON value gives
what `UploadData` records. -/
inductive UploadJson where
  | null (typeErrorMessage : String)
  | value (data : UploadData)
deriving DecidableEq, Repr

/-- What `response.json()` settles to: a rejection with the parser's message,
or the parsed value. -/
inductive Body (α : Type) where
  | unparsable (message : String)
  | json (data : α)
deriving DecidableEq, Repr

/-- What a `fetch` followed by `response.json()` settles to: `fetch` rejects
with the host's message (a network-level failure), or resolves to a response
with a status and a body. -/
inductive Outcome (α : Type) where
  | rejected (message : String)
  | response (status : Nat) (body : Body α)
deriving DecidableEq, Repr

/-- The property `response.ok`: the status is in the range 200-299. -/
def responseOk (status : Nat) : Bool :=
  decide (200 ≤ status) && decide (status ≤ 299)

/-! ## `showMessage` and the submit handler -/

/-- Source: `setTimeout(callback, delay)`. -/
def setTimeout (callback : Callback) (delay : Nat) (w : World) : World :=
  { w with timers := w.timers ++ [(w.now + delay, callback)] }

/-- Source: `showMessage(type, text)`, lines 111-118. -/
def showMessage (type text : String) (w : World) : World :=
  let w1 := { w with dom := { w.dom with
    messageClassName := "message " ++ type
    messageInnerHTML := text
    messageDisplay := "block" } }
  if type == "success" then setTimeout .hideMessage 5000 w1 else w1

/-- The submit handler up to its first `await`, lines 18-38. -/
def submit (API_BASE : String) (file : Option File) (w : World) : World :=
  match file with
  | none => showMessage "error" "❌ Please select an Excel file first!" w
  | some f =>
    let formData := [("file", f)]
    let dom := { w.dom with
      uploadBtnDisabled := true
      loaderDisplay := "block"
      messageDisplay := "none" }
    { w with
      dom := dom
      requests := w.requests ++ [⟨"POST", API_BASE ++ "/upload-excel", formData⟩]
      uploadsInFlight := w.uploadsInFlight + 1 }

/-- The `try` block of lines 34-47 once the request has settled: the parsed
body when line 46 is reached, or the `message` of the error that was thrown. -/
def uploadTry : Outcome UploadJson → Except String UploadData
  | .rejected message => .error message
  | .response _ (.unparsable message) => .error message
  -- `data.detail` throws at line 43, or `data.message` at line 46
  | .response _ (.json (.null typeErrorMessage)) => .error typeErrorMessage
  | .response status (.json (.value data)) =>
    if !responseOk status then .error (data.detail.orStr "Upload failed").toStr
    else .ok data

/-- The submit handler from the settling of its request to its end, lines
40-53: the rest of the `try` block, the `catch` block and the `finally` block. -/
def uploadSettled (outcome : Outcome UploadJson) (w : World) : World :=
  let w1 :=
    match uploadTry outcome with
    | .ok data => setTimeout .loadResults 1000 (showMessage "success" ("✅ " ++ data.message.toStr) w)
    | .error message => showMessage "error" ("❌ " ++ message) w
  { w1 with dom := { w1.dom with uploadBtnDisabled := false, loaderDisplay := "none" } }

/-! ## `loadResults` -/

/-- Source: `loadResults()` up to its first `await`, lines 57-59. -/
def loadResults (API_BASE : String) (w : World) : World :=
  { w with
    requests := w.requests ++ [⟨"GET", API_BASE ++ "/results", []⟩]
    loadsInFlight := w.loadsInFlight + 1 }

/-- The `catch` block of `loadResults`, lines 69-71. -/
def consoleError (e : JSErr) (w : World) : World :=
  { w with console := w.console ++ [e] }

/-- Source: `loadResults()` from the settling of its request, lines 60-71. -/
def resultsSettled (outcome : Outcome (List Student)) (w : World) : World :=
  match outcome with
  | .rejected message => consoleError (.error message) w
  | .response status body =>
    if !responseOk status then
      if status == 404 then w
      else consoleError (.error "Failed to load results") w
    else
      match body with
      | .unparsable message => consoleError (.error message) w
      | .json students =>
        if students.length == 0 then w
        else
          match displayResults students w.dom with
          | (dom, none) => { w with dom := dom }
          | (dom, some e) => consoleError e { w with dom := dom }

/-! ## Events -/

/-- What the host can deliver to the script. -/
inductive Event where
  /-- The `load` event of the window, line 127. -/
  | pageLoad
  /-- The `submit` event of the form, with the file selected in `#excelFile`. -/
  | submit (file : Option File)
  /-- The request of a suspended submit handler settles. -/
  | uploadSettled (outcome : Outcome UploadJson)
  /-- The request of a suspended `loadResults` settles. -/
  | resultsSettled (outcome : Outcome (List Student))
  /-- Time passes. -/
  | tick (ms : Nat)
  /-- The pending timer at position `i` fires. -/
  | timerFired (i : Nat)
deriving DecidableEq, Repr

/-- Running a timer callback. -/
def runCallback (API_BASE : String) (callback : Callback) (w : World) : World :=
  match callback with
  | .loadResults => loadResults API_BASE w
  | .hideMessage => { w with dom := { w.dom with messageDisplay := "none" } }

/-- One event. An event that the host cannot deliver in `w` (a settling with
nothing in flight, a timer that does not exist or is not yet due) changes
nothing. -/
def step (API_BASE : String) (w : World) : Event → World
  | .pageLoad => loadResults API_BASE w
  | .submit file => submit API_BASE file w
  | .uploadSettled outcome =>
    if w.uploadsInFlight = 0 then w
    else uploadSettled outcome { w with uploadsInFlight := w.uploadsInFlight - 1 }
  | .resultsSettled outcome =>
    if w.loadsInFlight = 0 then w
    else resultsSettled outcome { w with loadsInFlight := w.loadsInFlight - 1 }
  | .tick ms => { w with now := w.now + ms }
  | .timerFired i =>
    match w.timers.get? i with
    | none => w
    | some (due, callback) =>
      if w.now < due then w
      else runCallback API_BASE callback { w with timers := w.timers.eraseIdx i }

/-- A sequence of events, in order. -/
def run (API_BASE : String) (w : World) (events : List Event) : World :=
  events.foldl (step API_BASE) w

/-- The notification as displayed: class, content and `display`. -/
def notification (dom : Dom) : String × String × String :=
  (dom.messageClassName, dom.messageInnerHTML, dom.messageDisplay)

/-! ## Example inputs -/

/-- A document the script has not written to: no inline style is set, the
summary slots and the table are empty. -/
def freshDom : Dom :=
  { uploadBtnDisabled := false, loaderDisplay := "", messageClassName := "",
    messageInnerHTML := "", messageDisplay := "", resultsSectionDisplay := "",
    totalStudents := "", highRiskCount := "", mediumRiskCount := "",
    lowRiskCount := "", tableBody := [] }

/-- The state when the script starts. -/
def freshWorld : World :=
  { dom := freshDom, now := 0, requests := [], timers := [], console := [],
    uploadsInFlight := 0, loadsInFlight := 0 }

/-- A student with a name that carries markup, no program and no email. -/
def exStudent : Student :=
  { student_name := .str "Ann <b>", program := .undefined,
    grade := .num ⟨true, "87.456", "87.5"⟩, attendance_rate := .num ⟨true, "90", "90.0"⟩,
    risk_label := .str "Safe", recommended_action := .str "none", email := .undefined }

/-- The same student with an email address that carries markup. -/
def markupEmailStudent : Student :=
  { exStudent with email := .str "\"><script>alert(1)</script>" }

/-- The property of having one of the three labels the summary counts. -/
def knownLabel (s : Student) : Prop :=
  s.risk_label = .str "High Risk" ∨ s.risk_label = .str "At Risk" ∨ s.risk_label = .str "Safe"

/-- Both `grade` and `attendance_rate` are numbers. -/
def wellFormed (s : Student) : Bool :=
  (match s.grade with | .num _ => true | _ => false)
  && (match s.attendance_rate with | .num _ => true | _ => false)

/-- An upload that failed: the fetch was rejected, or the response has a
status outside 200-299. -/
def uploadFailed : Outcome UploadJson → Bool
  | .rejected _ => true
  | .response status _ => !responseOk status

/-- The pending timer at position `i` hides the notification and is due. -/
def hideTimerDue (w : World) (i : Nat) : Bool :=
  match w.timers.get? i with
  | some (due, .hideMessage) => decide (due ≤ w.now)
  | _ => false

/-- The origin used in the examples. -/
def exOrigin : String := "https://dash.example"

/-- A spreadsheet. -/
def exFile : File := ⟨"students.xlsx"⟩

/-- A successful upload whose results are not there yet one second later,
followed half a second after that by a submission with no file selected:
the error notification is shown at 1500 ms, the success notification was
shown at 0 ms. -/
def exErrorAfterSuccess : List Event :=
  [ .submit (some exFile),
    .uploadSettled (.response 200 (.json (.value ⟨.undefined, .str "Processed 50 rows"⟩))),
    .tick 1000,
    .timerFired 1,
    .resultsSettled (.response 404 (.unparsable "Unexpected token")),
    .tick 500,
    .submit none ]

/-! ## Lemmas -/

theorem strictEqStr_iff (v : JSVal) (lit : String) :
    v.strictEqStr lit = true ↔ v = .str lit := by
  cases v <;> simp [JSVal.strictEqStr]

theorem countLabel_cons (s : Student) (rest : List Student) (label : String) :
    countLabel (s :: rest) label
      = (if s.risk_label = .str label then 1 else 0) + countLabel rest label := by
  unfold countLabel
  by_cases h : s.risk_label = .str label
  · have hb : s.risk_label.strictEqStr label = true := (strictEqStr_iff _ _).2 h
    have hf : List.filter (fun t : Student => t.risk_label.strictEqStr label) (s :: rest)
        = s :: List.filter (fun t : Student => t.risk_label.strictEqStr label) rest :=
      List.filter_cons_of_pos hb
    rw [hf, if_pos h, List.length_cons]
    omega
  · have hb : ¬ s.risk_label.strictEqStr label = true := fun hb => h ((strictEqStr_iff _ _).1 hb)
    have hf : List.filter (fun t : Student => t.risk_label.strictEqStr label) (s :: rest)
        = List.filter (fun t : Student => t.risk_label.strictEqStr label) rest :=
      List.filter_cons_of_neg hb
    rw [hf, if_neg h]
    omega

theorem counts_le_and_eq_iff (students : List Student) :
    countLabel students "High Risk" + countLabel students "At Risk"
        + countLabel students "Safe" ≤ students.length
    ∧ (countLabel students "High Risk" + countLabel students "At Risk"
        + countLabel students "Safe" = students.length
      ↔ ∀ s ∈ students, knownLabel s) := by
  induction students with
  | nil => simp [countLabel]
  | cons s rest ih =>
    obtain ⟨hle, hiff⟩ := ih
    simp only [countLabel_cons, List.length_cons, List.forall_mem_cons]
    rw [← hiff]
    have d12 : (JSVal.str "High Risk") ≠ .str "At Risk" := by decide
    have d13 : (JSVal.str "High Risk") ≠ .str "Safe" := by decide
    have d23 : (JSVal.str "At Risk") ≠ .str "Safe" := by decide
    by_cases h1 : s.risk_label = .str "High Risk"
    · have h2 : ¬ s.risk_label = .str "At Risk" := by rw [h1]; exact d12
      have h3 : ¬ s.risk_label = .str "Safe" := by rw [h1]; exact d13
      have hk : knownLabel s := Or.inl h1
      rw [if_pos h1, if_neg h2, if_neg h3]
      refine ⟨by omega, ?_⟩
      constructor
      · intro h; exact ⟨hk, by omega⟩
      · intro h; have := h.2; omega
    · by_cases h2 : s.risk_label = .str "At Risk"
      · have h3 : ¬ s.risk_label = .str "Safe" := by rw [h2]; exact d23
        have hk : knownLabel s := Or.inr (Or.inl h2)
        rw [if_neg h1, if_pos h2, if_neg h3]
        refine ⟨by omega, ?_⟩
        constructor
        · intro h; exact ⟨hk, by omega⟩
        · intro h; have := h.2; omega
      · by_cases h3 : s.risk_label = .str "Safe"
        · have hk : knownLabel s := Or.inr (Or.inr h3)
          rw [if_neg h1, if_neg h2, if_pos h3]
          refine ⟨by omega, ?_⟩
          constructor
          · intro h; exact ⟨hk, by omega⟩
          · intro h; have := h.2; omega
        · have hk : ¬ knownLabel s := by
            intro h; rcases h with h | h | h
            · exact h1 h
            · exact h2 h
            · exact h3 h
          rw [if_neg h1, if_neg h2, if_neg h3]
          refine ⟨by omega, ?_⟩
          constructor
          · intro h; omega
          · intro h; exact absurd h.1 hk

/-- The summary slots after `displayResults`. -/
theorem displayResults_summary (students : List Student) (dom : Dom) :
    (displayResults students dom).1.totalStudents = toString students.length
    ∧ (displayResults students dom).1.highRiskCount = toString (countLabel students "High Risk")
    ∧ (displayResults students dom).1.mediumRiskCount = toString (countLabel students "At Risk")
    ∧ (displayResults students dom).1.lowRiskCount = toString (countLabel students "Safe") := by
  unfold displayResults
  simp only
  split <;> simp

theorem renderRow_eq (s : Student) (html : String) (h : renderRow s = .ok html) :
    ∃ grade attendance, html = rowTemplate s grade attendance := by
  unfold renderRow at h
  cases hg : s.grade.toFixed1 with
  | error e => rw [hg] at h; cases h
  | ok grade =>
    cases ha : s.attendance_rate.toFixed1 with
    | error e => rw [hg, ha] at h; cases h
    | ok attendance =>
      rw [hg, ha] at h
      injection h with h
      exact ⟨grade, attendance, h.symm⟩

theorem renderRow_ok (s : Student) (h : wellFormed s = true) :
    ∃ html, renderRow s = .ok html := by
  unfold wellFormed at h
  unfold renderRow
  cases hg : s.grade <;> simp [hg] at h
  cases ha : s.attendance_rate <;> simp [ha] at h
  exact ⟨_, rfl⟩

theorem appendRows_ok (l : List Student) :
    ∀ rows : List String, (∀ s ∈ l, wellFormed s = true) →
      (appendRows l rows).2 = none
      ∧ (appendRows l rows).1.map (Except.ok : String → Except JSErr String)
          = rows.map Except.ok ++ l.map renderRow := by
  induction l with
  | nil => intro rows _; simp [appendRows]
  | cons s rest ih =>
    intro rows h
    obtain ⟨html, hs⟩ := renderRow_ok s (h s (List.mem_cons_self _ _))
    have hrest : ∀ t ∈ rest, wellFormed t = true := fun t ht => h t (List.mem_cons_of_mem _ ht)
    obtain ⟨h1, h2⟩ := ih (rows ++ [html]) hrest
    simp only [appendRows, hs]
    refine ⟨h1, ?_⟩
    rw [h2]
    simp [hs]

theorem displayResults_table (students : List Student) (dom : Dom) :
    (displayResults students dom).1.tableBody = (appendRows (students.take 10) []).1
    ∧ (displayResults students dom).2 = (appendRows (students.take 10) []).2 := by
  unfold displayResults
  simp only
  split <;> rename_i h <;> simp [h]

theorem displayResults_notification (students : List Student) (dom : Dom) :
    notification (displayResults students dom).1 = notification dom := by
  unfold displayResults notification
  simp only
  split <;> rfl

theorem resultsSettled_notification (outcome : Outcome (List Student)) (w : World) :
    notification (resultsSettled outcome w).dom = notification w.dom := by
  unfold resultsSettled
  cases outcome with
  | rejected m => rfl
  | response status body =>
    simp only
    split
    · split <;> rfl
    · cases body with
      | unparsable m => rfl
      | json students =>
        simp only
        split
        · rfl
        · have h := displayResults_notification students w.dom
          split <;> rename_i h2 <;> rw [h2] at h <;> exact h

theorem resultsSettled_timers (outcome : Outcome (List Student)) (w : World) :
    (resultsSettled outcome w).timers = w.timers := by
  unfold resultsSettled
  cases outcome with
  | rejected m => rfl
  | response status body =>
    simp only
    split
    · split <;> rfl
    · cases body with
      | unparsable m => rfl
      | json students =>
        simp only
        split
        · rfl
        · split <;> rfl

theorem uploadSettled_error (outcome : Outcome UploadJson) (w : World) (m : String)
    (h : uploadTry outcome = .error m) :
    (uploadSettled outcome w).dom.messageClassName = "message error"
    ∧ (uploadSettled outcome w).dom.messageInnerHTML = "❌ " ++ m
    ∧ (uploadSettled outcome w).dom.messageDisplay = "block"
    ∧ (uploadSettled outcome w).timers = w.timers := by
  simp [uploadSettled, h, showMessage]

theorem uploadSettled_ok (outcome : Outcome UploadJson) (w : World) (data : UploadData)
    (h : uploadTry outcome = .ok data) :
    (uploadSettled outcome w).dom.messageClassName = "message success"
    ∧ (uploadSettled outcome w).dom.messageInnerHTML = "✅ " ++ data.message.toStr
    ∧ (uploadSettled outcome w).dom.messageDisplay = "block"
    ∧ (uploadSettled outcome w).timers
        = w.timers ++ [(w.now + 5000, .hideMessage), (w.now + 1000, .loadResults)] := by
  simp [uploadSettled, h, showMessage, setTimeout]

theorem uploadTry_failed (outcome : Outcome UploadJson) (h : uploadFailed outcome = true) :
    ∃ m, uploadTry outcome = .error m := by
  cases outcome with
  | rejected m => exact ⟨m, rfl⟩
  | response status body =>
    have hno : responseOk status = false := by simpa [uploadFailed] using h
    cases body with
    | unparsable m => exact ⟨m, rfl⟩
    | json parsed =>
      cases parsed with
      | null m => exact ⟨m, rfl⟩
      | value data =>
        exact ⟨(data.detail.orStr "Upload failed").toStr, by simp [uploadTry, hno]⟩

/-! ## Claims -/

set_option maxRecDepth 100000

/-- C1: for every list of students, `displayResults` writes the list length
into the total slot and the numbers of entries labelled exactly 'High Risk',
'At Risk' and 'Safe' into the three category slots; the three counts add up to
at most the total, with equality exactly when every entry has one of the
three labels. -/
theorem C1_summary_counts (students : List Student) (dom : Dom) :
    (displayResults students dom).1.totalStudents = toString students.length
    ∧ (displayResults students dom).1.highRiskCount
        = toString (countLabel students "High Risk")
    ∧ (displayResults students dom).1.mediumRiskCount
        = toString (countLabel students "At Risk")
    ∧ (displayResults students dom).1.lowRiskCount = toString (countLabel students "Safe")
    ∧ countLabel students "High Risk" + countLabel students "At Risk"
        + countLabel students "Safe" ≤ students.length
    ∧ (countLabel students "High Risk" + countLabel students "At Risk"
        + countLabel students "Safe" = students.length
      ↔ ∀ s ∈ students, s.risk_label = .str "High Risk" ∨ s.risk_label = .str "At Risk"
          ∨ s.risk_label = .str "Safe") := by
  obtain ⟨h1, h2, h3, h4⟩ := displayResults_summary students dom
  obtain ⟨h5, h6⟩ := counts_le_and_eq_iff students
  exact ⟨h1, h2, h3, h4, h5, h6⟩

/-- C2: for every list of students whose grade and attendance_rate are
numbers, and whatever the table held before, after `displayResults` the table
holds exactly the renderings of the first ten entries, in input order:
min(length, 10) rows, and nothing of what was there before; no exception
escapes. -/
theorem C2_table_rows (students : List Student) (dom : Dom)
    (h : ∀ s ∈ students, wellFormed s = true) :
    (displayResults students dom).1.tableBody.map (Except.ok : String → Except JSErr String)
        = (students.take 10).map renderRow
    ∧ (displayResults students dom).1.tableBody.length = min students.length 10
    ∧ (displayResults students dom).2 = none := by
  obtain ⟨ht, he⟩ := displayResults_table students dom
  have htake : ∀ s ∈ students.take 10, wellFormed s = true :=
    fun s hs => h s (List.mem_of_mem_take hs)
  obtain ⟨h1, h2⟩ := appendRows_ok (students.take 10) [] htake
  have hmap : (displayResults students dom).1.tableBody.map
      (Except.ok : String → Except JSErr String) = (students.take 10).map renderRow := by
    rw [ht, h2]; simp
  refine ⟨hmap, ?_, ?_⟩
  · have hl := congrArg List.length hmap
    simp only [List.length_map, List.length_take] at hl
    omega
  · rw [he]; exact h1

/-- C2, at a list of twelve students over a table that held two rows. -/
theorem C2_table_rows_witness :
    (∀ s ∈ List.replicate 12 exStudent, wellFormed s = true)
    ∧ (displayResults (List.replicate 12 exStudent)
          { freshDom with tableBody := ["<td>old</td>", "<td>older</td>"] }).1.tableBody.length
        = min (List.replicate 12 exStudent).length 10 :=
  ⟨by decide,
   (C2_table_rows (List.replicate 12 exStudent)
      { freshDom with tableBody := ["<td>old</td>", "<td>older</td>"] } (by decide)).2.1⟩

/-- C3: the row of a student whose email is `"><script>alert(1)</script>`.
The link text carries the address escaped, the `href` attribute carries it as
it came: the markup of the row holds the `<script>` tag. -/
theorem C3_href_email_not_escaped :
    renderRow markupEmailStudent = .ok
      ("\n            <td><strong>Ann &lt;b&gt;</strong></td>"
      ++ "\n            <td>N/A</td>"
      ++ "\n            <td>87.5%</td>"
      ++ "\n            <td>90.0%</td>"
      ++ "\n            <td><span class=\"risk-badge low\">Safe</span></td>"
      ++ "\n            <td>none</td>"
      ++ "\n            <td><a href=\"mailto:\"><script>alert(1)</script>\" class=\"email-link\">"
      ++ "\"&gt;&lt;script&gt;alert(1)&lt;/script&gt;</a></td>"
      ++ "\n        ") := by
  have h : renderRow markupEmailStudent
      = .ok (rowTemplate markupEmailStudent "87.5" "90.0") := rfl
  rw [h]
  exact congrArg Except.ok (by decide)

/-- C4: the row of a student with neither program nor email. The program cell
shows N/A and the link text is empty, but the `href` attribute is
`mailto:undefined`, not `mailto:`. -/
theorem C4_href_email_absent :
    renderRow exStudent = .ok
      ("\n            <td><strong>Ann &lt;b&gt;</strong></td>"
      ++ "\n            <td>N/A</td>"
      ++ "\n            <td>87.5%</td>"
      ++ "\n            <td>90.0%</td>"
      ++ "\n            <td><span class=\"risk-badge low\">Safe</span></td>"
      ++ "\n            <td>none</td>"
      ++ "\n            <td><a href=\"mailto:undefined\" class=\"email-link\"></a></td>"
      ++ "\n        ") := by
  have h : renderRow exStudent = .ok (rowTemplate exStudent "87.5" "90.0") := rfl
  rw [h]
  exact congrArg Except.ok (by decide)

/-- C5: a submission with a file selected issues exactly one request, the POST
to `API_BASE/upload-excel` with that file under the form field `file`, and the
rest of the handler issues none; a submission with no file selected issues no
request, shows the error notification '❌ Please select an Excel file first!',
leaves the submit button and the loader as they were, and leaves nothing
suspended. -/
theorem C5_submit_requests (API_BASE : String) (w : World) (f : File)
    (outcome : Outcome UploadJson) (w2 : World) :
    (submit API_BASE (some f) w).requests
        = w.requests ++ [⟨"POST", API_BASE ++ "/upload-excel", [("file", f)]⟩]
    ∧ (uploadSettled outcome w2).requests = w2.requests
    ∧ (submit API_BASE none w).requests = w.requests
    ∧ notification (submit API_BASE none w).dom
        = ("message error", "❌ Please select an Excel file first!", "block")
    ∧ (submit API_BASE none w).dom.uploadBtnDisabled = w.dom.uploadBtnDisabled
    ∧ (submit API_BASE none w).dom.loaderDisplay = w.dom.loaderDisplay
    ∧ (submit API_BASE none w).uploadsInFlight = w.uploadsInFlight := by
  refine ⟨rfl, ?_, rfl, rfl, rfl, rfl, rfl⟩
  unfold uploadSettled
  cases uploadTry outcome <;> rfl

/-- C6: a submission with a file selected disables the submit button and shows
the loader; whatever the request settles to (a 2xx response, a non-2xx
response, a rejected fetch, a body that is not JSON) and whatever happened to
the document in between, when the handler finishes the button is enabled and
the loader is hidden. -/
theorem C6_button_and_loader_restored (API_BASE : String) (w : World) (f : File)
    (outcome : Outcome UploadJson) (w2 : World) :
    (submit API_BASE (some f) w).dom.uploadBtnDisabled = true
    ∧ (submit API_BASE (some f) w).dom.loaderDisplay = "block"
    ∧ (uploadSettled outcome w2).dom.uploadBtnDisabled = false
    ∧ (uploadSettled outcome w2).dom.loaderDisplay = "none" :=
  ⟨rfl, rfl, rfl, rfl⟩

/-- C7: when the `/results` response has status 404, or has a 2xx status and
an empty array as its JSON body, `loadResults` changes nothing that is
displayed: the call itself leaves the document as it is, and the settled
request leaves the whole state as it is (summary, table, visibility of the
results section, notification; nothing is logged either). -/
theorem C7_no_results_no_update (API_BASE : String) (w : World) (status : Nat)
    (body : Body (List Student))
    (h : status = 404 ∨ (responseOk status = true ∧ body = .json [])) :
    (loadResults API_BASE w).dom = w.dom
    ∧ resultsSettled (.response status body) w = w := by
  refine ⟨rfl, ?_⟩
  rcases h with h | ⟨hok, hb⟩
  · subst h
    simp [resultsSettled, responseOk]
  · subst hb
    simp [resultsSettled, hok]

/-- C7, at an empty array with status 200 over a document that shows results. -/
theorem C7_no_results_no_update_witness :
    ((200 : Nat) = 404 ∨ (responseOk 200 = true ∧ (Body.json [] : Body (List Student)) = .json []))
    ∧ resultsSettled (.response 200 (.json []))
        { freshWorld with dom := (displayResults [exStudent] freshDom).1 }
      = { freshWorld with dom := (displayResults [exStudent] freshDom).1 } :=
  ⟨by decide,
   (C7_no_results_no_update "https://dash.example"
      { freshWorld with dom := (displayResults [exStudent] freshDom).1 } 200 (.json [])
      (by decide)).2⟩

/-- C8, as the specification words it, fails: after a rejected fetch, which
has no body and so no `detail`, the notification is '❌ ' followed by the
message of the rejection, not by 'Upload failed'; after a non-2xx response
whose body is not JSON it is '❌ ' followed by the parser's message; after a
non-2xx response whose JSON body is `null` it is '❌ ' followed by the message
of the `TypeError`; and a `detail` string that is present but empty is passed
over for 'Upload failed'. -/
theorem C8_failure_notification_counterexample :
    (uploadSettled (.rejected "Failed to fetch")
        (submit exOrigin (some exFile) freshWorld)).dom.messageInnerHTML
      = "❌ Failed to fetch"
    ∧ (uploadSettled (.rejected "Failed to fetch")
        (submit exOrigin (some exFile) freshWorld)).dom.messageInnerHTML
      ≠ "❌ Upload failed"
    ∧ (uploadSettled (.response 502 (.unparsable "Unexpected token < in JSON at position 0"))
        (submit exOrigin (some exFile) freshWorld)).dom.messageInnerHTML
      = "❌ Unexpected token < in JSON at position 0"
    ∧ (uploadSettled
        (.response 500 (.json (.null "Cannot read properties of null (reading 'detail')")))
        (submit exOrigin (some exFile) freshWorld)).dom.messageInnerHTML
      = "❌ Cannot read properties of null (reading 'detail')"
    ∧ (uploadSettled (.response 400 (.json (.value ⟨.str "", .undefined⟩)))
        (submit exOrigin (some exFile) freshWorld)).dom.messageInnerHTML
      = "❌ Upload failed" := by
  decide

/-- C8 (amended): for every failed upload (a rejected fetch or a non-2xx
response) the handler shows an error notification and schedules nothing, so no
results refresh follows. Its text is '❌ ' followed by: the rejection's message
for a rejected fetch; the parser's message for a body that is not JSON; the
message of the host's `TypeError` for the JSON body `null`; and for any other
JSON body, `detail` converted to a string when `detail` is truthy (a non-empty
`detail` string as it is), and 'Upload failed' when `detail` is missing or
otherwise falsy. -/
theorem C8_failure_notification (w : World) (outcome : Outcome UploadJson)
    (h : uploadFailed outcome = true) :
    (uploadSettled outcome w).dom.messageClassName = "message error"
    ∧ (uploadSettled outcome w).dom.messageDisplay = "block"
    ∧ (uploadSettled outcome w).timers = w.timers
    ∧ (∀ m, outcome = .rejected m →
        (uploadSettled outcome w).dom.messageInnerHTML = "❌ " ++ m)
    ∧ (∀ status m, outcome = .response status (.unparsable m) →
        (uploadSettled outcome w).dom.messageInnerHTML = "❌ " ++ m)
    ∧ (∀ status m, outcome = .response status (.json (.null m)) →
        (uploadSettled outcome w).dom.messageInnerHTML = "❌ " ++ m)
    ∧ (∀ status data s, outcome = .response status (.json (.value data)) →
        data.detail = .str s → s ≠ "" →
        (uploadSettled outcome w).dom.messageInnerHTML = "❌ " ++ s)
    ∧ (∀ status data, outcome = .response status (.json (.value data)) →
        data.detail.truthy = true →
        (uploadSettled outcome w).dom.messageInnerHTML = "❌ " ++ data.detail.toStr)
    ∧ (∀ status data, outcome = .response status (.json (.value data)) →
        data.detail = .undefined →
        (uploadSettled outcome w).dom.messageInnerHTML = "❌ Upload failed")
    ∧ (∀ status data, outcome = .response status (.json (.value data)) →
        data.detail.truthy = false →
        (uploadSettled outcome w).dom.messageInnerHTML = "❌ Upload failed") := by
  obtain ⟨m0, hm0⟩ := uploadTry_failed outcome h
  obtain ⟨hc, _, hd, ht⟩ := uploadSettled_error outcome w m0 hm0
  refine ⟨hc, hd, ht, ?_, ?_, ?_, ?_, ?_, ?_, ?_⟩
  · intro m ho
    subst ho
    exact (uploadSettled_error (.rejected m) w m rfl).2.1
  · intro status m ho
    subst ho
    exact (uploadSettled_error (.response status (.unparsable m)) w m rfl).2.1
  · intro status m ho
    subst ho
    exact (uploadSettled_error (.response status (.json (.null m))) w m rfl).2.1
  · intro status data s ho hdet hs
    subst ho
    have hno : responseOk status = false := by simpa [uploadFailed] using h
    have htry : uploadTry (.response status (.json (.value data))) = .error s := by
      simp [uploadTry, hno, hdet, JSVal.orStr, JSVal.truthy, JSVal.toStr, hs]
    exact (uploadSettled_error _ w s htry).2.1
  · intro status data ho htr
    subst ho
    have hno : responseOk status = false := by simpa [uploadFailed] using h
    have htry : uploadTry (.response status (.json (.value data)))
        = .error data.detail.toStr := by
      simp [uploadTry, hno, JSVal.orStr, htr]
    exact (uploadSettled_error _ w _ htry).2.1
  · intro status data ho hdet
    subst ho
    have hno : responseOk status = false := by simpa [uploadFailed] using h
    have htry : uploadTry (.response status (.json (.value data)))
        = .error "Upload failed" := by
      simp [uploadTry, hno, hdet, JSVal.orStr, JSVal.truthy, JSVal.toStr]
    exact (uploadSettled_error _ w _ htry).2.1
  · intro status data ho htr
    subst ho
    have hno : responseOk status = false := by simpa [uploadFailed] using h
    have htry : uploadTry (.response status (.json (.value data)))
        = .error "Upload failed" := by
      simp [uploadTry, hno, JSVal.orStr, htr, JSVal.toStr]
    exact (uploadSettled_error _ w _ htry).2.1

/-- C8 (amended), at a 500 response whose body carries a `detail` string. -/
theorem C8_failure_notification_witness :
    uploadFailed
        (.response 500 (.json (.value ⟨.str "Sheet has no grade column", .undefined⟩))) = true
    ∧ (uploadSettled
        (.response 500 (.json (.value ⟨.str "Sheet has no grade column", .undefined⟩)))
        (submit exOrigin (some exFile) freshWorld)).dom.messageInnerHTML
      = "❌ " ++ "Sheet has no grade column" :=
  ⟨by decide,
   (C8_failure_notification (submit exOrigin (some exFile) freshWorld)
      (.response 500 (.json (.value ⟨.str "Sheet has no grade column", .undefined⟩)))
      (by decide)).2.2.2.2.2.2.1 500 ⟨.str "Sheet has no grade column", .undefined⟩
      "Sheet has no grade column" rfl rfl (by decide)⟩

/-- C9, as the specification words it, fails twice. First run: an upload
succeeds at 0 ms, a submission with no file shows an error notification at
1500 ms, and at 5000 ms the timer of the success notification hides it, with
no `showMessage` call in between. Second run: an error notification is shown
and the next submission, with a file selected, hides it before any
`showMessage` call. -/
theorem C9_error_notification_counterexample :
    notification (run exOrigin freshWorld exErrorAfterSuccess).dom
      = ("message error", "❌ Please select an Excel file first!", "block")
    ∧ notification
        (run exOrigin freshWorld (exErrorAfterSuccess ++ [.tick 3500, .timerFired 0])).dom
      = ("message error", "❌ Please select an Excel file first!", "none")
    ∧ notification (run exOrigin freshWorld [.submit none]).dom
      = ("message error", "❌ Please select an Excel file first!", "block")
    ∧ notification (run exOrigin freshWorld [.submit none, .submit (some exFile)]).dom
      = ("message error", "❌ Please select an Excel file first!", "none") := by
  decide

/-- C9 (amended): `showMessage` displays the notification and arms the timer
that hides it only for the type 'success', due 5000 ms later; a timer does not
fire before it is due. A submission with no file selected is a `showMessage`
call of type 'error'. A submission with a file selected hides the notification
that is displayed, of either type, and arms nothing; when that upload settles
the handler displays the next notification, either an error one, arming
nothing, or a success one, arming the hide timer and the refresh timer. No
other event arms a timer: not the page load, the passing of time, the settling
of a results request or the firing of a timer. And every event other than a
form submission, the settling of an upload and the firing of a due hide timer
leaves the notification, an error one included, as it is: the page load, the
passing of time, the settling of a results request, and the firing of a timer
that is absent, not yet due, or the refresh timer. -/
theorem C9_error_notification (API_BASE : String) (w : World) :
    (∀ type text, type ≠ "success" →
        notification (showMessage type text w).dom = ("message " ++ type, text, "block")
        ∧ (showMessage type text w).timers = w.timers)
    ∧ (∀ text,
        notification (showMessage "success" text w).dom = ("message success", text, "block")
        ∧ (showMessage "success" text w).timers = w.timers ++ [(w.now + 5000, .hideMessage)])
    ∧ step API_BASE w (.submit none)
        = showMessage "error" "❌ Please select an Excel file first!" w
    ∧ (∀ f, notification (step API_BASE w (.submit (some f))).dom
          = (w.dom.messageClassName, w.dom.messageInnerHTML, "none")
        ∧ (step API_BASE w (.submit (some f))).timers = w.timers)
    ∧ (∀ outcome, w.uploadsInFlight ≠ 0 →
        (step API_BASE w (.uploadSettled outcome)).dom.messageDisplay = "block"
        ∧ (((step API_BASE w (.uploadSettled outcome)).dom.messageClassName = "message error"
            ∧ (step API_BASE w (.uploadSettled outcome)).timers = w.timers)
          ∨ ((step API_BASE w (.uploadSettled outcome)).dom.messageClassName = "message success"
            ∧ (step API_BASE w (.uploadSettled outcome)).timers
              = w.timers ++ [(w.now + 5000, .hideMessage), (w.now + 1000, .loadResults)])))
    ∧ (∀ outcome, w.uploadsInFlight = 0 → step API_BASE w (.uploadSettled outcome) = w)
    ∧ (notification (step API_BASE w .pageLoad).dom = notification w.dom
        ∧ (step API_BASE w .pageLoad).timers = w.timers)
    ∧ (∀ ms, notification (step API_BASE w (.tick ms)).dom = notification w.dom
        ∧ (step API_BASE w (.tick ms)).timers = w.timers)
    ∧ (∀ outcome,
        notification (step API_BASE w (.resultsSettled outcome)).dom = notification w.dom
        ∧ (step API_BASE w (.resultsSettled outcome)).timers = w.timers)
    ∧ (∀ i, List.Sublist (step API_BASE w (.timerFired i)).timers w.timers)
    ∧ (∀ i due callback, w.timers.get? i = some (due, callback) → w.now < due →
        step API_BASE w (.timerFired i) = w)
    ∧ (∀ i, hideTimerDue w i = false →
        notification (step API_BASE w (.timerFired i)).dom = notification w.dom) := by
  refine ⟨?_, ?_, rfl, fun _ => ⟨rfl, rfl⟩, ?_, ?_, ⟨rfl, rfl⟩, fun _ => ⟨rfl, rfl⟩,
    ?_, ?_, ?_, ?_⟩
  · intro type text ht
    have hb : (type == "success") = false := by simpa using ht
    simp [showMessage, hb, notification]
  · intro text
    simp [showMessage, setTimeout, notification]
  · intro outcome hne
    simp only [step, if_neg hne]
    cases htry : uploadTry outcome with
    | error m =>
      obtain ⟨hc, _, hd, ht⟩ :=
        uploadSettled_error outcome { w with uploadsInFlight := w.uploadsInFlight - 1 } m htry
      exact ⟨hd, Or.inl ⟨hc, ht⟩⟩
    | ok data =>
      obtain ⟨hc, _, hd, ht⟩ :=
        uploadSettled_ok outcome { w with uploadsInFlight := w.uploadsInFlight - 1 } data htry
      exact ⟨hd, Or.inr ⟨hc, ht⟩⟩
  · intro outcome h0
    simp only [step, if_pos h0]
  · intro outcome
    simp only [step]
    split
    · exact ⟨rfl, rfl⟩
    · exact ⟨resultsSettled_notification outcome _, resultsSettled_timers outcome _⟩
  · intro i
    simp only [step]
    split
    · exact List.Sublist.refl _
    · rename_i due callback hget
      split
      · exact List.Sublist.refl _
      · cases callback with
        | loadResults => exact List.eraseIdx_sublist w.timers i
        | hideMessage => exact List.eraseIdx_sublist w.timers i
  · intro i due callback hget hlt
    simp only [step, hget, if_pos hlt]
  · intro i hi
    unfold hideTimerDue at hi
    simp only [step]
    split
    · rfl
    · rename_i due callback hget
      split
      · rfl
      · rename_i hdue
        cases callback with
        | loadResults => rfl
        | hideMessage =>
          rw [hget] at hi
          simp only [decide_eq_false_iff_not] at hi
          omega

/-- C9 (amended), at the state of the first run when the error notification
is up: the success timer is pending and not yet due, and its early firing
leaves the notification displayed. -/
theorem C9_error_notification_witness :
    hideTimerDue (run exOrigin freshWorld exErrorAfterSuccess) 0 = false
    ∧ notification
        (step exOrigin (run exOrigin freshWorld exErrorAfterSuccess) (.timerFired 0)).dom
      = notification (run exOrigin freshWorld exErrorAfterSuccess).dom :=
  ⟨by decide, by
    have hall := C9_error_notification exOrigin (run exOrigin freshWorld exErrorAfterSuccess)
    have hevents := hall.2.2.2.2.2.2
    exact hevents.2.2.2.2.2 0 (by decide)⟩

/-- C10: every rendered row holds the badge cell, a `span` whose class is
`risk-badge` followed by the visual class, and the visual class is 'high'
exactly when risk_label is the string 'High Risk', 'medium' exactly when it is
the string 'At Risk', and 'low' in every other case ('Safe', any other string,
a value that is no string, a missing label). -/
theorem C10_badge_class (student : Student) (html : String)
    (h : renderRow student = .ok html) :
    (∃ before after, html = before
        ++ "\n            <td><span class=\"risk-badge " ++ riskClass student ++ "\">"
        ++ escapeHtml student.risk_label ++ "</span></td>" ++ after)
    ∧ (riskClass student = "high" ↔ student.risk_label = .str "High Risk")
    ∧ (riskClass student = "medium" ↔ student.risk_label = .str "At Risk")
    ∧ (riskClass student = "low" ↔
        (student.risk_label ≠ .str "High Risk" ∧ student.risk_label ≠ .str "At Risk")) := by
  have d12 : (JSVal.str "High Risk") ≠ .str "At Risk" := by decide
  refine ⟨?_, ?_⟩
  · obtain ⟨grade, attendance, hrow⟩ := renderRow_eq student html h
    refine ⟨"\n            <td><strong>" ++ escapeHtml student.student_name ++ "</strong></td>"
        ++ "\n            <td>" ++ escapeHtml (student.program.orStr "N/A") ++ "</td>"
        ++ "\n            <td>" ++ grade ++ "%</td>"
        ++ "\n            <td>" ++ attendance ++ "%</td>",
      "\n            <td>" ++ escapeHtml student.recommended_action ++ "</td>"
        ++ "\n            <td><a href=\"mailto:" ++ student.email.toStr
        ++ "\" class=\"email-link\">" ++ escapeHtml (student.email.orStr "") ++ "</a></td>"
        ++ "\n        ", ?_⟩
    rw [hrow]
    unfold rowTemplate
    simp only [String.append_assoc]
  · unfold riskClass
    by_cases h1 : student.risk_label = .str "High Risk"
    · have hb1 : student.risk_label.strictEqStr "High Risk" = true := (strictEqStr_iff _ _).2 h1
      rw [if_pos hb1]
      exact ⟨⟨fun _ => h1, fun _ => rfl⟩,
        ⟨fun hc => absurd hc (by decide), fun hc => absurd (h1.symm.trans hc) d12⟩,
        ⟨fun hc => absurd hc (by decide), fun hc => absurd h1 hc.1⟩⟩
    · have hb1 : ¬ student.risk_label.strictEqStr "High Risk" = true :=
        fun hc => h1 ((strictEqStr_iff _ _).1 hc)
      by_cases h2 : student.risk_label = .str "At Risk"
      · have hb2 : student.risk_label.strictEqStr "At Risk" = true := (strictEqStr_iff _ _).2 h2
        rw [if_neg hb1, if_pos hb2]
        exact ⟨⟨fun hc => absurd hc (by decide), fun hc => absurd hc h1⟩,
          ⟨fun _ => h2, fun _ => rfl⟩,
          ⟨fun hc => absurd hc (by decide), fun hc => absurd h2 hc.2⟩⟩
      · have hb2 : ¬ student.risk_label.strictEqStr "At Risk" = true :=
          fun hc => h2 ((strictEqStr_iff _ _).1 hc)
        rw [if_neg hb1, if_neg hb2]
        exact ⟨⟨fun hc => absurd hc (by decide), fun hc => absurd hc h1⟩,
          ⟨fun hc => absurd hc (by decide), fun hc => absurd hc h2⟩,
          ⟨fun _ => ⟨h1, h2⟩, fun _ => rfl⟩⟩

/-- C10, at a student labelled 'Safe': the badge class is 'low'. -/
theorem C10_badge_class_witness :
    renderRow exStudent = .ok (rowTemplate exStudent "87.5" "90.0")
    ∧ (riskClass exStudent = "low" ↔
        (exStudent.risk_label ≠ .str "High Risk" ∧ exStudent.risk_label ≠ .str "At Risk")) :=
  ⟨rfl, (C10_badge_class exStudent (rowTemplate exStudent "87.5" "90.0") rfl).2.2.2⟩

end StudentRisk
